import Mathlib

/-!
Verification development for the youtube-clipper backend
(`src/backend/src/index.ts`): a shallow embedding of the
`POST /api/clip` request handler and proofs of its specified properties.
-/

namespace Clipper

/-- A JavaScript value as it can appear in a JSON request-body field. -/
inductive JSValue
  | vStr (s : String)
  | vNum (n : Int)
  | vBool (b : Bool)
  | vNull
  deriving DecidableEq, Repr

/-- JavaScript truthiness: `""`, `0`, `false` and `null` are falsy. -/
def truthy : JSValue → Bool
  | .vStr s => !(s == "")
  | .vNum n => !(n == 0)
  | .vBool b => b
  | .vNull => false

/-- Truthiness of a possibly-absent field (`undefined` is falsy). -/
def truthyOpt : Option JSValue → Bool
  | none => false
  | some v => truthy v

/-- JavaScript template-literal stringification of a value. -/
def jsToString : JSValue → String
  | .vStr s => s
  | .vNum n => toString n
  | .vBool b => if b then "true" else "false"
  | .vNull => "null"

/-- The body of a `POST /api/clip` request: each of the three fields may be
absent (`undefined` after destructuring). -/
structure ClipRequest where
  url : Option JSValue
  startTime : Option JSValue
  endTime : Option JSValue
  deriving DecidableEq, Repr

/-- State of the cookie file at `../src/cookies.txt`: absent, present but
unreadable (`readFileSync` throws), or readable with some content. -/
inductive CookieState
  | absent
  | unreadable
  | readable (content : String)
  deriving DecidableEq, Repr

/-- The environment a single request runs in: `__dirname`, the `Date.now()`
timestamp, the cookie-file state, and the observed behaviour of the spawned
`yt-dlp` process (spawn error, exit code — `none` models Node's `null` code —
accumulated stderr, output-file state at the close event), plus the state at
cleanup time and the transport/unlink outcomes: whether each of the two
`unlinkAsync` calls would throw. -/
structure World where
  dirname : String
  timestamp : Nat
  cookies : CookieState
  spawnErr : Option String
  exitCode : Option Int
  stderr : String
  outFileSize : Option Nat
  sendErr : Bool
  outExistsAtCleanup : Bool
  partExistsAtCleanup : Bool
  unlinkOutFails : Bool
  unlinkPartFails : Bool
  deriving DecidableEq, Repr

/-- `path.join`, modelled as separator concatenation. -/
def pathJoin (a b : String) : String := a ++ "/" ++ b

/-- `const uploadsDir = path.join(__dirname, "../uploads")`. -/
def uploadsDir (dirname : String) : String := pathJoin dirname "../uploads"

/-- `const outputPath = path.join(uploadsDir, `clip-TIMESTAMP.mp4`)`. -/
def outputPathOf (dirname : String) (ts : Nat) : String :=
  pathJoin (uploadsDir dirname) ("clip-" ++ toString ts ++ ".mp4")

/-- `const cookiesFilePath = path.join(__dirname, "../src/cookies.txt")`. -/
def cookiesFilePathOf (dirname : String) : String :=
  pathJoin dirname "../src/cookies.txt"

/-- First selector of the `-f` chain: HTTPS mp4 video plus m4a audio. -/
def selHttpsMp4M4a : String :=
  "bestvideo[protocol=https][ext=mp4]+bestaudio[protocol=https][ext=m4a]"

/-- Second selector: HTTPS webm video plus webm audio. -/
def selHttpsWebmWebm : String :=
  "bestvideo[protocol=https][ext=webm]+bestaudio[protocol=https][ext=webm]"

/-- Third selector: any-protocol mp4 video plus m4a audio. -/
def selAnyMp4M4a : String := "bestvideo[ext=mp4]+bestaudio[ext=m4a]"

/-- Fourth selector: any-protocol webm video plus webm audio. -/
def selAnyWebmWebm : String := "bestvideo[ext=webm]+bestaudio[ext=webm]"

/-- Final generic fallback selector. -/
def selBest : String := "best"

/-- The `-f` format argument exactly as written in the source. -/
def formatChain : String :=
  "bestvideo[protocol=https][ext=mp4]+bestaudio[protocol=https][ext=m4a]/bestvideo[protocol=https][ext=webm]+bestaudio[protocol=https][ext=webm]/bestvideo[ext=mp4]+bestaudio[ext=m4a]/bestvideo[ext=webm]+bestaudio[ext=webm]/best"

/-- The `user-agent` header value from the source. -/
def userAgentHeader : String :=
  "user-agent:Mozilla/5.0 (Windows NT 10.0; Win64; x64) AppleWebKit/537.36 (KHTML, like Gecko) Chrome/124.0.0.0 Safari/537.36"

/-- `ytDlpArgs` as assembled at lines 51-73 of the source, before the
conditional cookies attachment. -/
def ytDlpBaseArgs (url sect outPath : String) : List String :=
  [url,
   "-f", formatChain,
   "--download-sections", sect,
   "-o", outPath,
   "--no-check-certificates",
   "--no-warnings",
   "--add-header", "referer:youtube.com",
   "--add-header", userAgentHeader,
   "--merge-output-format", "mp4",
   "--verbose",
   "--no-playlist",
   "--extractor-retries", "3",
   "--ignore-errors",
   "--no-check-certificate",
   "--geo-bypass"]

/-- Lines 76-91: if the cookie file exists and is readable, push
`--cookies <path>` (its content is only size-checked for a warning);
if reading throws, or the file is absent, leave the list unchanged. -/
def attachCookies (dirname : String) (ck : CookieState) (args : List String) :
    List String :=
  match ck with
  | .absent => args
  | .unreadable => args
  | .readable _ => args ++ ["--cookies", cookiesFilePathOf dirname]

/-- Does list `s` start with list `p`? -/
def startsWithL : List Char → List Char → Bool
  | _, [] => true
  | [], _ :: _ => false
  | a :: as, b :: bs => a == b && startsWithL as bs

/-- Does list `s` contain `p` as a contiguous sublist? -/
def hasSubL : List Char → List Char → Bool
  | [], pat => pat == []
  | c :: rest, pat => startsWithL (c :: rest) pat || hasSubL rest pat

/-- JavaScript `String.prototype.includes`. -/
def jsIncludes (s pat : String) : Bool := hasSubL s.data pat.data

/-- The bot-detection signature phrase tested against stderr (line 123). -/
def botPhrase : String := "Sign in to confirm you\x27re not a bot"

/-- The distinguished credential-problem message (line 125). -/
def credErrorMsg : String :=
  "YouTube bot detection triggered. The cookies file may be expired or invalid."

/-- JavaScript stringification of the close-event `code` (`null` possible). -/
def codeToString : Option Int → String
  | none => "null"
  | some n => toString n

/-- The generic non-zero-exit failure message (line 127). -/
def genericFailMsg (code : Option Int) (stderr : String) : String :=
  "yt-dlp failed with code " ++ codeToString code ++ ". Stderr: " ++ stderr

/-- The exit-0-but-no-output failure message (line 117). -/
def noOutputMsg (stderr : String) : String :=
  "yt-dlp indicated success, but no output file was found. Stderr: " ++ stderr

/-- The spawn-failure message (line 134). -/
def spawnFailMsg (m : String) : String := "Failed to start yt-dlp: " ++ m

/-- Resolution of the promise awaited at lines 109-136: a spawn error rejects;
exit code strictly 0 resolves if the output file exists with positive size and
otherwise rejects with `noOutputMsg`; any other exit rejects with the
credential message when stderr contains a known phrase, else generically. -/
def processOutcome (w : World) : Except String Unit :=
  match w.spawnErr with
  | some m => .error (spawnFailMsg m)
  | none =>
    if w.exitCode = some 0 then
      match w.outFileSize with
      | some n => if 0 < n then .ok () else .error (noOutputMsg w.stderr)
      | none => .error (noOutputMsg w.stderr)
    else
      if jsIncludes w.stderr botPhrase || jsIncludes w.stderr "cookies" then
        .error credErrorMsg
      else
        .error (genericFailMsg w.exitCode w.stderr)

/-- The response sent for the request: 400 JSON error, 500 JSON error, or the
file download with its fixed client-visible name. -/
inductive Response
  | badRequest (error : String)
  | serverError (error : String)
  | fileSent (filename : String)
  deriving DecidableEq, Repr

/-- Everything observable about one handled request: the single response, and
the side-effect traces (whether `spawn` ran, with which argument list, and
which paths had deletion attempted). -/
structure HandlerResult where
  response : Response
  spawned : Bool
  args : List String
  deletions : List String
  deriving DecidableEq, Repr

/-- The deletions attempted by the `res.download` callback (lines 146-160).
Both unlinks live in one `try` block: the output file is unlinked if it
exists; if that unlink throws, control jumps to the `catch` and the `.part`
existence check and unlink are never reached; otherwise the `.part` file is
unlinked if it exists (a throw there is likewise only caught and logged). -/
def cleanupDeletions (outPath : String) (w : World) : List String :=
  if w.outExistsAtCleanup then
    if w.unlinkOutFails then [outPath]
    else outPath :: (if w.partExistsAtCleanup then [outPath ++ ".part"] else [])
  else
    if w.partExistsAtCleanup then [outPath ++ ".part"] else []

/-- The `POST /api/clip` handler (lines 27-187): validate the three fields by
truthiness, build the argument list, optionally attach cookies, spawn, await
the process, and either stream the file (then clean up) or answer 500 from
the catch block. -/
def handleClip (req : ClipRequest) (w : World) : HandlerResult :=
  let outPath := outputPathOf w.dirname w.timestamp
  if truthyOpt req.url && truthyOpt req.startTime && truthyOpt req.endTime then
    let url := jsToString (req.url.getD .vNull)
    let st := jsToString (req.startTime.getD .vNull)
    let et := jsToString (req.endTime.getD .vNull)
    let sect := "*" ++ st ++ "-" ++ et
    let args := attachCookies w.dirname w.cookies (ytDlpBaseArgs url sect outPath)
    match processOutcome w with
    | .error msg =>
        { response := .serverError msg, spawned := true, args := args,
          deletions := [] }
    | .ok _ =>
        { response := .fileSent "clip.mp4", spawned := true, args := args,
          deletions := cleanupDeletions outPath w }
  else
    { response := .badRequest "url, startTime, and endTime are required",
      spawned := false, args := [], deletions := [] }

/-- The sequence of response-emitting calls the handler performs on one
request, in program order. A `List Response` can hold several emissions, so a
handler that answered twice would produce a longer trace; this one has three
emission sites, each on its own path: `res.status(400).json` at line 36
(followed by `return`, so nothing later on that path runs), `res.download` at
line 141 (reached only when the awaited promise resolved, so the catch block
is not entered), and `res.status(500).json` at line 181 in the catch (reached
only when the promise rejected, before `res.download` is called). -/
def responseEvents (req : ClipRequest) (w : World) : List Response :=
  if truthyOpt req.url && truthyOpt req.startTime && truthyOpt req.endTime then
    match processOutcome w with
    | .error msg => [.serverError msg]
    | .ok _ => [.fileSent "clip.mp4"]
  else
    [.badRequest "url, startTime, and endTime are required"]

end Clipper

namespace Clipper

/-- If the three fields are truthy, the handler's argument list is exactly the
base list with the conditional cookies attachment. -/
theorem handleClip_args (req : ClipRequest) (w : World) (u s e : JSValue)
    (hu : req.url = some u) (hs : req.startTime = some s)
    (he : req.endTime = some e) (htu : truthy u = true)
    (hts : truthy s = true) (hte : truthy e = true) :
    (handleClip req w).args =
      attachCookies w.dirname w.cookies
        (ytDlpBaseArgs (jsToString u)
          ("*" ++ jsToString s ++ "-" ++ jsToString e)
          (outputPathOf w.dirname w.timestamp)) := by
  rcases hpo : processOutcome w with m | v <;>
    simp [handleClip, truthyOpt, hu, hs, he, htu, hts, hte, hpo]

/-- If the three fields are truthy, the subprocess is spawned. -/
theorem handleClip_spawned (req : ClipRequest) (w : World)
    (hu : truthyOpt req.url = true) (hs : truthyOpt req.startTime = true)
    (he : truthyOpt req.endTime = true) :
    (handleClip req w).spawned = true := by
  rcases hpo : processOutcome w with m | v <;>
    simp [handleClip, hu, hs, he, hpo]

/-- The generic failure message never coincides with the credential one. -/
theorem generic_ne_cred (c : Option Int) (s : String) :
    genericFailMsg c s ≠ credErrorMsg := by
  intro h
  have h1 : (genericFailMsg c s).data.head? = some 'y' := rfl
  rw [h] at h1
  exact absurd h1 (by decide)

/-- The download-section string never equals the cookies flag. -/
theorem sect_ne_cookies (s e : String) :
    ("*" ++ s ++ "-" ++ e) ≠ "--cookies" := by
  intro h
  have h1 : ("*" ++ s ++ "-" ++ e).data.head? = some '*' := rfl
  rw [h] at h1
  exact absurd h1 (by decide)

/-- The output path never equals the cookies flag. -/
theorem outPath_ne_cookies (d : String) (ts : Nat) :
    outputPathOf d ts ≠ "--cookies" := by
  intro h
  have h1 : '/' ∈ (outputPathOf d ts).data := by
    simp [outputPathOf, uploadsDir, pathJoin, String.data_append]
  rw [h] at h1
  exact absurd h1 (by decide)

set_option maxRecDepth 8000 in
/-- The base argument list carries no cookies flag. -/
theorem cookies_flag_not_in_base (url sect outPath : String)
    (h1 : url ≠ "--cookies") (h2 : sect ≠ "--cookies")
    (h3 : outPath ≠ "--cookies") :
    "--cookies" ∉ ytDlpBaseArgs url sect outPath := by
  intro hmem
  simp only [ytDlpBaseArgs, List.mem_cons, List.not_mem_nil, or_false] at hmem
  rcases hmem with h|h|h|h|h|h|h|h|h|h|h|h|h|h|h|h|h|h|h|h|h|h <;>
    first
      | exact h1 h.symm
      | exact h2 h.symm
      | exact h3 h.symm
      | exact absurd h (by decide)

/-- C1: a request missing any of url, startTime, endTime gets the 400
response with the error string, and no subprocess is spawned. -/
theorem missing_field_yields_400_no_spawn (req : ClipRequest) (w : World)
    (h : req.url = none ∨ req.startTime = none ∨ req.endTime = none) :
    (handleClip req w).response =
      .badRequest "url, startTime, and endTime are required" ∧
    (handleClip req w).spawned = false ∧ (handleClip req w).args = [] := by
  obtain ⟨u, s, e⟩ := req
  rcases h with h | h | h <;> subst h <;> simp [handleClip, truthyOpt]

/-- C2: on exit code 0 the output file is checked for existence and positive
size; failing either check yields the 500 error embedding stderr and no file
is streamed, passing both yields the file response. -/
theorem exit0_output_check (req : ClipRequest) (w : World)
    (hu : truthyOpt req.url = true) (hs : truthyOpt req.startTime = true)
    (he : truthyOpt req.endTime = true)
    (hsp : w.spawnErr = none) (hc : w.exitCode = some 0) :
    ((w.outFileSize = none ∨ w.outFileSize = some 0) →
      (handleClip req w).response = .serverError (noOutputMsg w.stderr) ∧
      ∀ name, (handleClip req w).response ≠ .fileSent name) ∧
    (∀ n, w.outFileSize = some n → 0 < n →
      (handleClip req w).response = .fileSent "clip.mp4") := by
  constructor
  · intro hf
    have hpo : processOutcome w = .error (noOutputMsg w.stderr) := by
      rcases hf with hf | hf <;> simp [processOutcome, hsp, hc, hf]
    simp [handleClip, hu, hs, he, hpo]
  · intro n hf hn
    have hpo : processOutcome w = .ok () := by
      simp [processOutcome, hsp, hc, hf, hn]
    simp [handleClip, hu, hs, he, hpo]

/-- C3: a non-zero exit yields the credential message exactly when stderr
contains a known phrase, else the generic message with exit code and stderr;
the two messages are distinct. -/
theorem nonzero_exit_error_classification (req : ClipRequest) (w : World)
    (hu : truthyOpt req.url = true) (hs : truthyOpt req.startTime = true)
    (he : truthyOpt req.endTime = true)
    (hsp : w.spawnErr = none) (hc : ¬ w.exitCode = some 0) :
    ((jsIncludes w.stderr botPhrase || jsIncludes w.stderr "cookies") = true →
      (handleClip req w).response = .serverError credErrorMsg) ∧
    ((jsIncludes w.stderr botPhrase || jsIncludes w.stderr "cookies") = false →
      (handleClip req w).response =
        .serverError (genericFailMsg w.exitCode w.stderr)) ∧
    genericFailMsg w.exitCode w.stderr ≠ credErrorMsg := by
  refine ⟨?_, ?_, generic_ne_cred _ _⟩ <;> intro hph
  · have hpo : processOutcome w = .error credErrorMsg := by
      simp [processOutcome, hsp, hc, hph]
    simp [handleClip, hu, hs, he, hpo]
  · have hpo : processOutcome w = .error (genericFailMsg w.exitCode w.stderr) := by
      simp [processOutcome, hsp, hc, hph]
    simp [handleClip, hu, hs, he, hpo]

set_option maxRecDepth 8000 in
/-- C4: for a valid request the argument list opens with the url, the format
chain (the ordered OR-list of the five selectors), the download-sections
specifier, and the computed output path. -/
theorem args_format_section_output (req : ClipRequest) (w : World)
    (u s e : JSValue)
    (hu : req.url = some u) (hs : req.startTime = some s)
    (he : req.endTime = some e) (htu : truthy u = true)
    (hts : truthy s = true) (hte : truthy e = true) :
    (handleClip req w).args.take 7 =
      [jsToString u, "-f", formatChain, "--download-sections",
       "*" ++ jsToString s ++ "-" ++ jsToString e, "-o",
       outputPathOf w.dirname w.timestamp] ∧
    formatChain =
      selHttpsMp4M4a ++ "/" ++ selHttpsWebmWebm ++ "/" ++ selAnyMp4M4a ++
        "/" ++ selAnyWebmWebm ++ "/" ++ selBest ∧
    outputPathOf w.dirname w.timestamp =
      pathJoin (uploadsDir w.dirname)
        ("clip-" ++ toString w.timestamp ++ ".mp4") := by
  refine ⟨?_, by decide, rfl⟩
  rw [handleClip_args req w u s e hu hs he htu hts hte]
  cases w.cookies <;> rfl

/-- C5: the cookies flag and path are appended exactly when the cookie file
is readable (any content, however small); an unreadable or absent file leaves
the base list unchanged, and when absent no cookies flag occurs at all. -/
theorem cookie_attachment_cases (req : ClipRequest) (w : World)
    (u s e : JSValue)
    (hu : req.url = some u) (hs : req.startTime = some s)
    (he : req.endTime = some e) (htu : truthy u = true)
    (hts : truthy s = true) (hte : truthy e = true)
    (hnu : jsToString u ≠ "--cookies") :
    (∀ content, w.cookies = .readable content →
      (handleClip req w).args =
        ytDlpBaseArgs (jsToString u)
          ("*" ++ jsToString s ++ "-" ++ jsToString e)
          (outputPathOf w.dirname w.timestamp) ++
          ["--cookies", cookiesFilePathOf w.dirname] ∧
      (handleClip req w).spawned = true) ∧
    (w.cookies = .unreadable →
      (handleClip req w).args =
        ytDlpBaseArgs (jsToString u)
          ("*" ++ jsToString s ++ "-" ++ jsToString e)
          (outputPathOf w.dirname w.timestamp) ∧
      (handleClip req w).spawned = true) ∧
    (w.cookies = .absent →
      (handleClip req w).args =
        ytDlpBaseArgs (jsToString u)
          ("*" ++ jsToString s ++ "-" ++ jsToString e)
          (outputPathOf w.dirname w.timestamp) ∧
      "--cookies" ∉ (handleClip req w).args ∧
      (handleClip req w).spawned = true) := by
  have hu2 : truthyOpt req.url = true := by rw [hu]; exact htu
  have hs2 : truthyOpt req.startTime = true := by rw [hs]; exact hts
  have he2 : truthyOpt req.endTime = true := by rw [he]; exact hte
  have hargs := handleClip_args req w u s e hu hs he htu hts hte
  have hsp := handleClip_spawned req w hu2 hs2 he2
  refine ⟨?_, ?_, ?_⟩
  · intro content hck
    rw [hck] at hargs
    exact ⟨hargs, hsp⟩
  · intro hck
    rw [hck] at hargs
    exact ⟨hargs, hsp⟩
  · intro hck
    rw [hck] at hargs
    have hni : "--cookies" ∉
        ytDlpBaseArgs (jsToString u)
          ("*" ++ jsToString s ++ "-" ++ jsToString e)
          (outputPathOf w.dirname w.timestamp) :=
      cookies_flag_not_in_base _ _ _ hnu (sect_ne_cookies _ _)
        (outPath_ne_cookies _ _)
    exact ⟨hargs, by rw [hargs]; exact hni, hsp⟩

/-- C6 (amended): a request that reaches the file-send step streams the file;
it attempts deletion of the output file when that file exists, and attempts
deletion of the .part file when it exists provided the output-file deletion
(if any) did not throw — a throw there skips the .part attempt via the shared
catch; and the response does not depend on the transport or unlink failures,
so no such failure is surfaced to the client. -/
theorem send_step_cleanup_always (req : ClipRequest) (w : World)
    (hu : truthyOpt req.url = true) (hs : truthyOpt req.startTime = true)
    (he : truthyOpt req.endTime = true)
    (hsp : w.spawnErr = none) (hc : w.exitCode = some 0)
    (n : Nat) (hf : w.outFileSize = some n) (hn : 0 < n) :
    (handleClip req w).response = .fileSent "clip.mp4" ∧
    (handleClip req w).deletions =
      (if w.outExistsAtCleanup then
        if w.unlinkOutFails then [outputPathOf w.dirname w.timestamp]
        else outputPathOf w.dirname w.timestamp ::
          (if w.partExistsAtCleanup
            then [outputPathOf w.dirname w.timestamp ++ ".part"] else [])
      else
        if w.partExistsAtCleanup
          then [outputPathOf w.dirname w.timestamp ++ ".part"] else []) ∧
    (∀ b c d, (handleClip req
        { w with
          sendErr := b, unlinkOutFails := c, unlinkPartFails := d }).response =
      (handleClip req w).response) := by
  have hpo : processOutcome w = .ok () := by
    simp [processOutcome, hsp, hc, hf, hn]
  refine ⟨?_, ?_, ?_⟩
  · simp [handleClip, hu, hs, he, hpo]
  · simp [handleClip, hu, hs, he, hpo, cleanupDeletions]
  · intro b c d
    have hpo2 : processOutcome
        { w with sendErr := b, unlinkOutFails := c, unlinkPartFails := d } =
        .ok () := hpo
    simp [handleClip, hu, hs, he, hpo, hpo2]

/-- C7: on every request the handler emits exactly one response event — the
trace of response-emitting calls has length one — and that single event is
either a streamed file or a structured error, never both; the event agrees
with the response recorded in the handler result. -/
theorem exactly_one_outcome (req : ClipRequest) (w : World) :
    (responseEvents req w).length = 1 ∧
    responseEvents req w = [(handleClip req w).response] ∧
    ((∃ name, Response.fileSent name ∈ responseEvents req w) ∨
      ∃ msg, Response.badRequest msg ∈ responseEvents req w ∨
        Response.serverError msg ∈ responseEvents req w) ∧
    ¬ ((∃ name, Response.fileSent name ∈ responseEvents req w) ∧
      ∃ msg, Response.badRequest msg ∈ responseEvents req w ∨
        Response.serverError msg ∈ responseEvents req w) := by
  by_cases hg : (truthyOpt req.url && truthyOpt req.startTime &&
      truthyOpt req.endTime) = true
  · rcases hpo : processOutcome w with m | v <;>
      simp [responseEvents, handleClip, hg, hpo]
  · simp [responseEvents, handleClip, hg]

/-- C8: a present but falsy startTime or endTime (number 0 or empty string)
is rejected like a missing field: 400 response, no subprocess. -/
theorem falsy_present_field_rejected (req : ClipRequest) (w : World)
    (h : req.startTime = some (.vNum 0) ∨ req.startTime = some (.vStr "") ∨
      req.endTime = some (.vNum 0) ∨ req.endTime = some (.vStr "")) :
    (handleClip req w).response =
      .badRequest "url, startTime, and endTime are required" ∧
    (handleClip req w).spawned = false := by
  rcases h with h | h | h | h <;> simp [handleClip, truthyOpt, truthy, h]

/-- C9: credential classification only reads stderr: even with no cookie file
attached, a non-zero exit whose stderr contains a known phrase reports the
credential-problem message. -/
theorem cred_classification_ignores_cookie_state (req : ClipRequest)
    (w : World)
    (hu : truthyOpt req.url = true) (hs : truthyOpt req.startTime = true)
    (he : truthyOpt req.endTime = true)
    (hck : w.cookies = .absent) (hsp : w.spawnErr = none)
    (hc : ¬ w.exitCode = some 0)
    (hph : jsIncludes w.stderr botPhrase = true ∨
      jsIncludes w.stderr "cookies" = true) :
    (handleClip req w).response = .serverError credErrorMsg := by
  have hpo : processOutcome w = .error credErrorMsg := by
    rcases hph with hph | hph <;> simp [processOutcome, hsp, hc, hph]
  simp [handleClip, hu, hs, he, hpo]

/-- C10: a request that ends in an error response attempts no deletion. -/
theorem no_cleanup_on_error_response (req : ClipRequest) (w : World)
    (h : ∃ msg, (handleClip req w).response = .badRequest msg ∨
      (handleClip req w).response = .serverError msg) :
    (handleClip req w).deletions = [] := by
  by_cases hg : (truthyOpt req.url && truthyOpt req.startTime &&
      truthyOpt req.endTime) = true
  · rcases hpo : processOutcome w with m | v
    · simp [handleClip, hg, hpo]
    · exfalso
      obtain ⟨msg, hm | hm⟩ := h <;> simp [handleClip, hg, hpo] at hm
  · simp [handleClip, hg]

end Clipper

namespace Clipper

/-- A representative valid request. -/
def demoReq : ClipRequest :=
  { url := some (.vStr "https://example.com/video"),
    startTime := some (.vStr "00:00:10"),
    endTime := some (.vStr "00:00:20") }

/-- A request with no url field. -/
def noUrlReq : ClipRequest :=
  { url := none,
    startTime := some (.vStr "00:00:10"),
    endTime := some (.vStr "00:00:20") }

/-- A request whose startTime is the number 0. -/
def zeroStartReq : ClipRequest :=
  { url := some (.vStr "https://example.com/video"),
    startTime := some (.vNum 0),
    endTime := some (.vStr "00:00:20") }

/-- A run where yt-dlp exits 0 and writes a 100-byte file. -/
def demoWorld : World :=
  { dirname := "/app/backend/src", timestamp := 1700000000000,
    cookies := .absent, spawnErr := none, exitCode := some 0, stderr := "",
    outFileSize := some 100, sendErr := false, outExistsAtCleanup := true,
    partExistsAtCleanup := false, unlinkOutFails := false,
    unlinkPartFails := false }

/-- A run like `demoWorld` but where the `.part` file also exists and the
unlink of the output file throws. -/
def failUnlinkWorld : World :=
  { demoWorld with partExistsAtCleanup := true, unlinkOutFails := true }

/-- A run where yt-dlp exits 0 but writes no file. -/
def emptyOutWorld : World :=
  { demoWorld with outFileSize := none, outExistsAtCleanup := false }

/-- A run where yt-dlp exits 1 with a cookies-related stderr. -/
def botWorld : World :=
  { demoWorld with
    exitCode := some 1, stderr := "ERROR: cookies expired",
    outFileSize := none, outExistsAtCleanup := false }

/-- A run with a readable cookie file. -/
def ckWorld : World :=
  { demoWorld with cookies := .readable "# cookies" }

/-- C1 witness at a concrete url-less request. -/
theorem missing_field_yields_400_no_spawn_witness :
    noUrlReq.url = none ∧
    ((handleClip noUrlReq demoWorld).response =
      .badRequest "url, startTime, and endTime are required" ∧
    (handleClip noUrlReq demoWorld).spawned = false ∧
    (handleClip noUrlReq demoWorld).args = []) :=
  ⟨rfl, missing_field_yields_400_no_spawn noUrlReq demoWorld (Or.inl rfl)⟩

/-- C2 witness: exit 0 with no output file gives the 500 with stderr. -/
theorem exit0_output_check_witness :
    (handleClip demoReq emptyOutWorld).response =
      .serverError (noOutputMsg emptyOutWorld.stderr) ∧
    ∀ name, (handleClip demoReq emptyOutWorld).response ≠ .fileSent name :=
  (exit0_output_check demoReq emptyOutWorld (by decide) (by decide) (by decide)
    rfl rfl).1 (Or.inl rfl)

/-- C3 witness: exit 1 with cookies-related stderr gives the credential
message. -/
theorem nonzero_exit_error_classification_witness :
    (handleClip demoReq botWorld).response = .serverError credErrorMsg :=
  (nonzero_exit_error_classification demoReq botWorld (by decide) (by decide)
    (by decide) rfl (by decide)).1 (by decide)

/-- C4 witness at the demo request and world. -/
theorem args_format_section_output_witness :
    (handleClip demoReq demoWorld).args.take 7 =
      [jsToString (.vStr "https://example.com/video"), "-f", formatChain,
       "--download-sections",
       "*" ++ jsToString (.vStr "00:00:10") ++ "-" ++
         jsToString (.vStr "00:00:20"), "-o",
       outputPathOf demoWorld.dirname demoWorld.timestamp] :=
  (args_format_section_output demoReq demoWorld
    (.vStr "https://example.com/video") (.vStr "00:00:10")
    (.vStr "00:00:20") rfl rfl rfl (by decide) (by decide) (by decide)).1

/-- C5 witness: a readable cookie file appends the flag and path. -/
theorem cookie_attachment_cases_witness :
    (handleClip demoReq ckWorld).args =
      ytDlpBaseArgs (jsToString (.vStr "https://example.com/video"))
        ("*" ++ jsToString (.vStr "00:00:10") ++ "-" ++
          jsToString (.vStr "00:00:20"))
        (outputPathOf ckWorld.dirname ckWorld.timestamp) ++
        ["--cookies", cookiesFilePathOf ckWorld.dirname] ∧
    (handleClip demoReq ckWorld).spawned = true :=
  (cookie_attachment_cases demoReq ckWorld
    (.vStr "https://example.com/video") (.vStr "00:00:10")
    (.vStr "00:00:20") rfl rfl rfl (by decide) (by decide) (by decide)
    (by decide)).1 "# cookies" rfl

/-- C6 witness: the demo run streams the file and deletes the output path. -/
theorem send_step_cleanup_always_witness :
    (handleClip demoReq demoWorld).response = .fileSent "clip.mp4" ∧
    (handleClip demoReq demoWorld).deletions =
      [outputPathOf demoWorld.dirname demoWorld.timestamp] :=
  ⟨(send_step_cleanup_always demoReq demoWorld (by decide) (by decide)
      (by decide) rfl rfl 100 rfl (by decide)).1,
   (send_step_cleanup_always demoReq demoWorld (by decide) (by decide)
      (by decide) rfl rfl 100 rfl (by decide)).2.1⟩

/-- C6 counterexample: a request that reaches the file-send step, with both
the output file and the `.part` file present at cleanup time, whose
output-file unlink throws: the `.part` deletion is never attempted, refuting
the claim that both deletions are attempted whenever the files are present. -/
theorem cleanup_part_skipped_counterexample :
    failUnlinkWorld.outExistsAtCleanup = true ∧
    failUnlinkWorld.partExistsAtCleanup = true ∧
    (handleClip demoReq failUnlinkWorld).response = .fileSent "clip.mp4" ∧
    outputPathOf failUnlinkWorld.dirname failUnlinkWorld.timestamp ++ ".part"
      ∉ (handleClip demoReq failUnlinkWorld).deletions :=
  ⟨rfl, rfl, by decide, by decide⟩

/-- C8 witness: startTime equal to the number 0 is rejected. -/
theorem falsy_present_field_rejected_witness :
    (handleClip zeroStartReq demoWorld).response =
      .badRequest "url, startTime, and endTime are required" ∧
    (handleClip zeroStartReq demoWorld).spawned = false :=
  falsy_present_field_rejected zeroStartReq demoWorld (Or.inl rfl)

/-- C9 witness: no cookie file, yet the credential message is reported. -/
theorem cred_classification_ignores_cookie_state_witness :
    botWorld.cookies = .absent ∧
    (handleClip demoReq botWorld).response = .serverError credErrorMsg :=
  ⟨rfl, cred_classification_ignores_cookie_state demoReq botWorld (by decide)
    (by decide) (by decide) rfl rfl (by decide) (Or.inr (by decide))⟩

/-- C10 witness: the 400 response attempts no deletion. -/
theorem no_cleanup_on_error_response_witness :
    (handleClip noUrlReq demoWorld).deletions = [] :=
  no_cleanup_on_error_response noUrlReq demoWorld
    ⟨"url, startTime, and endTime are required", Or.inl (by decide)⟩

end Clipper
